import Mathlib

/-!
Verification development for the VisualPP benchmark core
(`src/frontend/src/lib/mockKVService.js`): the latency simulator, the
two-tier storage abstraction (`redis` with hot cache, `db` without), the
workload generator `runBenchmark`, and the result aggregation.

Modelling conventions:
* JavaScript numbers are modelled as exact rationals extended with the
  non-finite values `NaN`, `Infinity` and `-Infinity` (`JsNum`); integer
  quantities from the configuration are `Int`.
* `Math.random()` is a single stream of independent draws in `[0, 1)`.
  The model names each draw by its purpose and loop index (`Draws`); no
  claim proved here correlates draws across purposes, so this renaming is
  behaviour-preserving.
* `async`/`await` sequencing is strict sequential execution; the promise
  returned by `simulateLatency` resolves with no value, so the model
  returns the drawn delay itself (the only observable of the call).
* Wall-clock measurement (`performance.now()`) cannot be computed inside
  the model; the measured duration in seconds is a parameter of
  `runBenchmark`, and `timestamp` (wall-clock time of day) is omitted
  from the result record.
* The `Map` objects `redisStore`, `redisCache` and `dbStore` are modelled
  as functions `String → Option String`.
-/

/-- JavaScript number values as used by the benchmark core: an exact
rational, or one of the non-finite values NaN, Infinity, -Infinity. -/
inductive JsNum where
  | num (q : ℚ)
  | nan
  | posInf
  | negInf
deriving DecidableEq, Repr

/-- JavaScript addition on `JsNum`. -/
def JsNum.add : JsNum → JsNum → JsNum
  | nan, _ => nan
  | _, nan => nan
  | posInf, negInf => nan
  | negInf, posInf => nan
  | posInf, _ => posInf
  | _, posInf => posInf
  | negInf, _ => negInf
  | _, negInf => negInf
  | num a, num b => num (a + b)

/-- JavaScript subtraction on `JsNum`. -/
def JsNum.sub : JsNum → JsNum → JsNum
  | nan, _ => nan
  | _, nan => nan
  | posInf, posInf => nan
  | negInf, negInf => nan
  | posInf, _ => posInf
  | _, posInf => negInf
  | negInf, _ => negInf
  | _, negInf => posInf
  | num a, num b => num (a - b)

/-- JavaScript multiplication on `JsNum` (0 times an infinity is NaN). -/
def JsNum.mul : JsNum → JsNum → JsNum
  | nan, _ => nan
  | _, nan => nan
  | num a, num b => num (a * b)
  | num a, posInf => if 0 < a then posInf else if a < 0 then negInf else nan
  | num a, negInf => if 0 < a then negInf else if a < 0 then posInf else nan
  | posInf, num a => if 0 < a then posInf else if a < 0 then negInf else nan
  | negInf, num a => if 0 < a then negInf else if a < 0 then posInf else nan
  | posInf, posInf => posInf
  | posInf, negInf => negInf
  | negInf, posInf => negInf
  | negInf, negInf => posInf

/-- JavaScript division on `JsNum`: a positive finite number divided by
zero is Infinity, zero by zero is NaN (signed zero is not modelled). -/
def JsNum.div : JsNum → JsNum → JsNum
  | nan, _ => nan
  | _, nan => nan
  | num a, num b =>
      if b = 0 then (if 0 < a then posInf else if a < 0 then negInf else nan)
      else num (a / b)
  | num _, posInf => num 0
  | num _, negInf => num 0
  | posInf, num b => if 0 ≤ b then posInf else negInf
  | negInf, num b => if 0 ≤ b then negInf else posInf
  | posInf, _ => nan
  | negInf, _ => nan

/-- JavaScript strict less-than on `JsNum`: any comparison with NaN is false. -/
def JsNum.lt : JsNum → JsNum → Bool
  | nan, _ => false
  | _, nan => false
  | num a, num b => decide (a < b)
  | num _, posInf => true
  | posInf, num _ => false
  | num _, negInf => false
  | negInf, num _ => true
  | posInf, posInf => false
  | negInf, negInf => false
  | negInf, posInf => true
  | posInf, negInf => false

/-- JavaScript less-or-equal on `JsNum`: any comparison with NaN is false. -/
def JsNum.le : JsNum → JsNum → Bool
  | nan, _ => false
  | _, nan => false
  | num a, num b => decide (a ≤ b)
  | num _, posInf => true
  | posInf, num _ => false
  | num _, negInf => false
  | negInf, num _ => true
  | posInf, posInf => true
  | negInf, negInf => true
  | negInf, posInf => true
  | posInf, negInf => false

/-- JavaScript `Math.floor` on `JsNum` (floor of NaN or an infinity is itself). -/
def JsNum.floorJs : JsNum → JsNum
  | num a => num (⌊a⌋ : ℤ)
  | x => x

/-- JavaScript `Math.min` on `JsNum` (NaN absorbs). -/
def JsNum.minJs : JsNum → JsNum → JsNum
  | nan, _ => nan
  | _, nan => nan
  | num a, num b => num (min a b)
  | negInf, _ => negInf
  | _, negInf => negInf
  | posInf, x => x
  | x, posInf => x

/-- JavaScript truthiness of a number: 0 and NaN are falsy. -/
def JsNum.truthy : JsNum → Bool
  | num a => decide (a ≠ 0)
  | nan => false
  | _ => true

/-- JavaScript `a || b` on numbers: `a` when truthy, else `b`. -/
def jsOr (a b : JsNum) : JsNum := if a.truthy then a else b

/-- Whether a `JsNum` is a finite number. -/
def JsNum.isFinite : JsNum → Bool
  | num _ => true
  | _ => false

/-- Number of iterations of `for (let i = 0; i < bound; i++)` for a
`JsNum` bound: the count of naturals `i` with `i < bound`. A NaN or
negative bound runs the loop zero times. (An infinite bound never arises
in this development: loop bounds are built from finite parses.) -/
def JsNum.loopCount : JsNum → ℕ
  | num q => (⌈q⌉).toNat
  | _ => 0

/-- Value of a decimal digit sequence, or `none` when a non-digit occurs. -/
def decimalNatAux : List Char → ℕ → Option ℕ
  | [], acc => some acc
  | c :: rest, acc =>
      if '0' ≤ c ∧ c ≤ '9' then decimalNatAux rest (acc * 10 + (c.toNat - '0'.toNat))
      else none

/-- JavaScript `Number(s)` restricted to the ratio strings the benchmark
uses: the empty string is 0, a decimal natural literal is its value, and
anything else is NaN. (Full `Number()` also accepts signs, decimal points
and exponents, which never occur in the `"A:B"` ratio fields.) -/
def jsNumber (s : String) : JsNum :=
  if s.toList = [] then .num 0
  else
    match decimalNatAux s.toList 0 with
    | some n => .num n
    | none => .nan

/-- Splitting of a character list at every colon, the semantics of
JavaScript `s.split(':')` (every input yields at least one piece). -/
def splitOnColon : List Char → List (List Char)
  | [] => [[]]
  | c :: rest =>
      let r := splitOnColon rest
      if c = ':' then [] :: r
      else
        match r with
        | [] => [[c]]
        | h :: t => (c :: h) :: t

/-- Parsing of a ratio string, from `ratio.split(':').map(Number)` followed
by array destructuring into two components: a missing component is
`undefined`, which behaves as NaN in the arithmetic it feeds. -/
def parseRatioPair (s : String) : JsNum × JsNum :=
  match splitOnColon s.toList with
  | [] => (.nan, .nan)
  | [a] => (jsNumber (String.mk a), .nan)
  | a :: b :: _ => (jsNumber (String.mk a), jsNumber (String.mk b))

/-- Per-write cacheability probability, from
`cachedPart / (cachedPart + uncachedPart || 1)`. -/
def cachedProbabilityOf (cachedRatio : String) : JsNum :=
  let pr := parseRatioPair cachedRatio
  JsNum.div pr.1 (jsOr (JsNum.add pr.1 pr.2) (.num 1))

/-- Alphabet of generated payload characters. -/
def benchmarkChars : String :=
  "ABCDEFGHIJKLMNOPQRSTUVWXYZabcdefghijklmnopqrstuvwxyz0123456789"

/-- JavaScript `s.charAt(i)`: the one-character string at index `i`, or the
empty string when `i` is out of range. -/
def jsCharAt (s : String) (i : ℤ) : String :=
  if 0 ≤ i ∧ i < (s.toList.length : ℤ) then String.singleton (s.toList.getD i.toNat 'A')
  else ""

/-- Random payload value of `size` characters: each character is
`chars.charAt(Math.floor(Math.random() * chars.length))`, with `draw j`
the j-th character's random draw. -/
def generateValue (size : Int) (draw : ℕ → ℚ) : String :=
  (List.range size.toNat).foldl
    (fun result i =>
      result ++ jsCharAt benchmarkChars ⌊draw i * (benchmarkChars.toList.length : ℚ)⌋)
    ""

/-- Latency range in milliseconds. -/
structure SimRange where
  min : ℚ
  max : ℚ
deriving DecidableEq, Repr

/-- Configurable simulation parameters (`simulationConfig`). -/
structure SimulationConfig where
  redisLatencyMs : SimRange
  dbLatencyMs : SimRange
  networkJitterMs : SimRange
deriving DecidableEq, Repr

/-- Default simulation parameters from the source. -/
def defaultSimulationConfig : SimulationConfig :=
  ⟨⟨2, 15⟩, ⟨30, 200⟩, ⟨0, 5⟩⟩

/-- Latency simulator: `Math.random() * (max - min) + min`, with `r` the
random draw. The promise it returns resolves after this many milliseconds
and carries no value, so the model returns the delay itself. -/
def simulateLatency (min max r : ℚ) : ℚ := r * (max - min) + min

/-- State of the cached (redis-like) tier: backing store and hot cache. -/
structure RedisState where
  redisStore : String → Option String
  redisCache : String → Option String

/-- Fresh cached-tier state: both maps empty. -/
def emptyRedis : RedisState := ⟨fun _ => none, fun _ => none⟩

/-- Map update `m.set(k, v)`. -/
def mapSet (m : String → Option String) (k v : String) : String → Option String :=
  fun x => if x = k then some v else m x

/-- Map removal `m.delete(k)`. -/
def mapDel (m : String → Option String) (k : String) : String → Option String :=
  fun x => if x = k then none else m x

/-- Cached-tier `redis.set(key, value, cached)`: store the value; if
`cached` also store in the hot cache, otherwise evict any stale cache
entry for the key. (The write's latency draw is over the redis range and
does not affect state.) -/
def redisSet (st : RedisState) (key value : String) (cached : Bool) : RedisState :=
  { redisStore := mapSet st.redisStore key value
    redisCache :=
      if cached then mapSet st.redisCache key value
      else if (st.redisCache key).isSome then mapDel st.redisCache key
      else st.redisCache }

/-- Cached-tier `redis.get(key)`: on a hot-cache hit, the cached value
after a jitter-range delay; otherwise the backing-store value (or `none`)
after a redis-latency-range delay. Returns the value together with the
latency range handed to `simulateLatency`. -/
def redisGet (simCfg : SimulationConfig) (st : RedisState) (key : String) :
    Option String × SimRange :=
  if (st.redisCache key).isSome then (st.redisCache key, simCfg.networkJitterMs)
  else (st.redisStore key, simCfg.redisLatencyMs)

/-- Cached-tier `redis.exists(key)`: jitter delay, backing-store lookup,
no state change. -/
def redisExists (st : RedisState) (key : String) : Bool :=
  (st.redisStore key).isSome

/-- Cached-tier `redis.del(key)`: remove from both store and cache;
returns whether the store had the key. -/
def redisDel (st : RedisState) (key : String) : RedisState × Bool :=
  (⟨mapDel st.redisStore key, mapDel st.redisCache key⟩, (st.redisStore key).isSome)

/-- Cached-tier `redis.setCached(key, cached)`: when the store has the
key, insert its stored value into (or remove it from) the hot cache. -/
def redisSetCached (st : RedisState) (key : String) (cached : Bool) : RedisState × Bool :=
  match st.redisStore key with
  | none => (st, false)
  | some v =>
      if cached then (⟨st.redisStore, mapSet st.redisCache key v⟩, true)
      else (⟨st.redisStore, mapDel st.redisCache key⟩, true)

/-- Cached-tier `redis.getCachedStatus(key)`: `none` when the store lacks
the key, else whether the cache holds it. No state change. -/
def redisGetCachedStatus (st : RedisState) (key : String) : Option Bool :=
  if (st.redisStore key).isSome then some (st.redisCache key).isSome else none

/-- Cached-tier `redis.flushAll()`: clear store and cache. -/
def redisFlushAll (_st : RedisState) : RedisState × Bool :=
  (⟨fun _ => none, fun _ => none⟩, true)

/-- State of the uncached (db) tier: the backing store only. -/
def DbState : Type := String → Option String

/-- Fresh uncached-tier state. -/
def emptyDb : DbState := fun _ => none

/-- Uncached-tier `db.set(key, value)`. -/
def dbSet (st : DbState) (key value : String) : DbState := mapSet st key value

/-- Uncached-tier `db.get(key)`: db-latency delay, then the stored value
or `none`. Returns the value with the latency range used. -/
def dbGet (simCfg : SimulationConfig) (st : DbState) (key : String) :
    Option String × SimRange :=
  (st key, simCfg.dbLatencyMs)

/-- Uncached-tier `db.del(key)`. -/
def dbDel (st : DbState) (key : String) : DbState × Bool :=
  (mapDel st key, (st key).isSome)

/-- Uncached-tier `db.clear()`. -/
def dbClear (_st : DbState) : DbState := fun _ => none

/-- A storage operation issued by the workload generator: a write with
its key, generated value and cacheability flag (for the uncached tier no
flag is passed; recorded as `false`), or a read with its key. -/
inductive TraceOp where
  | setOp (key value : String) (cached : Bool)
  | getOp (key : String)
deriving DecidableEq, Repr

/-- Random draws consumed by one `runBenchmark` call, named by purpose
and loop index. In the source all of them come from the single
`Math.random()` stream of independent uniform draws on `[0, 1)`. -/
structure Draws where
  cachePop : ℕ → ℚ
  cacheMain : ℕ → ℚ
  mix : ℕ → ℚ
  keyIdx : ℕ → ℚ
  valPop : ℕ → ℕ → ℚ
  valMain : ℕ → ℕ → ℚ

/-- Trace of the SET benchmark: `requests` sequential writes to keys
`benchmark:<i>`; on the redis tier each write's cacheability is the
Bernoulli trial `Math.random() < cachedProbability`. -/
def setModeTrace (storage : String) (size : Int) (p : JsNum) (d : Draws) (n : ℕ) :
    List TraceOp :=
  (List.range n).map fun i =>
    let key := "benchmark:" ++ toString i
    let value := generateValue size (d.valPop i)
    if storage = "redis" then
      TraceOp.setOp key value (JsNum.lt (.num (d.cachePop i)) p)
    else TraceOp.setOp key value false

/-- Population phase of the GET benchmark: `requests` writes to keys
`benchmark:get:<i>`. -/
def getPopTrace (storage : String) (size : Int) (p : JsNum) (d : Draws) (n : ℕ) :
    List TraceOp :=
  (List.range n).map fun i =>
    let key := "benchmark:get:" ++ toString i
    let value := generateValue size (d.valPop i)
    if storage = "redis" then
      TraceOp.setOp key value (JsNum.lt (.num (d.cachePop i)) p)
    else TraceOp.setOp key value false

/-- Read phase of the GET benchmark: `requests` reads of the same keys in
the same order. -/
def getReadTrace (n : ℕ) : List TraceOp :=
  (List.range n).map fun i => TraceOp.getOp ("benchmark:get:" ++ toString i)

/-- Trace of the GET benchmark: the population phase followed by the read
phase. -/
def getModeTrace (storage : String) (size : Int) (p : JsNum) (d : Draws) (n : ℕ) :
    List TraceOp :=
  getPopTrace storage size p d n ++ getReadTrace n

/-- MIXED-mode scheduling parameters, in evaluation order:
the weight `setRatio / (setRatio + getRatio)`, then
`setOps = Math.floor(weight * requests)` and `getOps = requests - setOps`. -/
def mixedParams (ratio : String) (requests : Int) : JsNum × JsNum × JsNum :=
  let pr := parseRatioPair ratio
  let w := JsNum.div pr.1 (JsNum.add pr.1 pr.2)
  let setOps := (JsNum.mul w (.num (requests : ℚ))).floorJs
  let getOps := JsNum.sub (.num (requests : ℚ)) setOps
  (w, setOps, getOps)

/-- Number of pre-population iterations in MIXED mode:
`for (let i = 0; i < Math.min(getOps, requests / 2); i++)`. -/
def mixedPrePopCount (ratio : String) (requests : Int) : ℕ :=
  (JsNum.minJs (mixedParams ratio requests).2.2
    (JsNum.div (.num (requests : ℚ)) (.num 2))).loopCount

/-- Pre-population phase of the MIXED benchmark: writes to keys
`benchmark:mixed:<i>`. -/
def mixedPreTrace (storage : String) (size : Int) (p : JsNum) (d : Draws) (m : ℕ) :
    List TraceOp :=
  (List.range m).map fun i =>
    let key := "benchmark:mixed:" ++ toString i
    let value := generateValue size (d.valPop i)
    if storage = "redis" then
      TraceOp.setOp key value (JsNum.lt (.num (d.cachePop i)) p)
    else TraceOp.setOp key value false

/-- One iteration of the MIXED main loop over the running state
`(setCount, getCount, trace)`: the iteration is SET-classified exactly
when `setCount < setOps && (getCount >= getOps || Math.random() < w)`,
and the accessed key index is `Math.floor(Math.random() * requests)`. -/
def mixedStep (storage : String) (size : Int) (p w setOps getOps : JsNum)
    (requests : Int) (d : Draws) (i : ℕ) (st : ℕ × ℕ × List TraceOp) :
    ℕ × ℕ × List TraceOp :=
  let setCount := st.1
  let getCount := st.2.1
  let tr := st.2.2
  let isSetOp := JsNum.lt (.num (setCount : ℚ)) setOps
    && (JsNum.le getOps (.num (getCount : ℚ)) || JsNum.lt (.num (d.mix i)) w)
  let key := "benchmark:mixed:" ++ toString ⌊d.keyIdx i * (requests : ℚ)⌋
  if isSetOp then
    let value := generateValue size (d.valMain i)
    let op :=
      if storage = "redis" then
        TraceOp.setOp key value (JsNum.lt (.num (d.cacheMain i)) p)
      else TraceOp.setOp key value false
    (setCount + 1, getCount, tr ++ [op])
  else
    (setCount, getCount + 1, tr ++ [TraceOp.getOp key])

/-- State of the MIXED main loop after `i` iterations. -/
def mixedIter (storage : String) (size : Int) (p w setOps getOps : JsNum)
    (requests : Int) (d : Draws) : ℕ → ℕ × ℕ × List TraceOp
  | 0 => (0, 0, [])
  | i + 1 =>
      mixedStep storage size p w setOps getOps requests d i
        (mixedIter storage size p w setOps getOps requests d i)

/-- MIXED main loop after `i` iterations, with its scheduling parameters
computed from the ratio string as the source does. -/
def mixedMain (storage : String) (size : Int) (p : JsNum) (ratio : String)
    (requests : Int) (d : Draws) (i : ℕ) : ℕ × ℕ × List TraceOp :=
  let ps := mixedParams ratio requests
  mixedIter storage size p ps.1 ps.2.1 ps.2.2 requests d i

/-- Benchmark configuration, after the destructuring defaults of
`runBenchmark` have been applied. -/
structure Config where
  type : String
  storage : String
  requests : Int
  size : Int
  ratio : String
  cachedRatio : String
  name : String
deriving DecidableEq, Repr

/-- Benchmark result record returned by `runBenchmark`. The source also
carries a `timestamp` (wall-clock time of day), which is not modelled. -/
structure BenchResult where
  id : String
  name : String
  type : String
  storage : String
  requests : Int
  size : Int
  ratio : String
  cachedRatio : String
  opsPerSecond : JsNum
  duration : ℚ
deriving DecidableEq, Repr

/-- Workload generator and result aggregator `runBenchmark(config)`.
`duration` is the measured elapsed time in seconds
(`(endTime - startTime) / 1000`), a wall-clock observation passed in as a
parameter; `idDraw` models `Math.random().toString(36).substring(2, 10)`.
Returns the result record together with the full trace of storage
operations issued (the source has no failure path: every configuration
produces a result). -/
def runBenchmark (config : Config) (d : Draws) (duration : ℚ) (idDraw : String) :
    BenchResult × List TraceOp :=
  let requests := config.requests
  let size := config.size
  let cachedProbability := cachedProbabilityOf config.cachedRatio
  let n := requests.toNat
  let trace :=
    if config.type = "set" then
      setModeTrace config.storage size cachedProbability d n
    else if config.type = "get" then
      getModeTrace config.storage size cachedProbability d n
    else if config.type = "mixed" then
      mixedPreTrace config.storage size cachedProbability d
          (mixedPrePopCount config.ratio requests)
        ++ (mixedMain config.storage size cachedProbability config.ratio requests d n).2.2
    else []
  ({ id := "run-" ++ idDraw
     name := config.name
     type := config.type
     storage := config.storage
     requests := requests
     size := size
     ratio := config.ratio
     cachedRatio := if config.storage = "redis" then config.cachedRatio else "0:1"
     opsPerSecond := JsNum.div (.num (requests : ℚ)) (.num duration)
     duration := duration }, trace)

/-- Sequential replay of a trace against the cached tier: threads the
state through every operation and collects each read's returned value in
order. -/
def applyTraceRedis (simCfg : SimulationConfig) (st : RedisState) :
    List TraceOp → RedisState × List (Option String)
  | [] => (st, [])
  | TraceOp.setOp k v c :: rest => applyTraceRedis simCfg (redisSet st k v c) rest
  | TraceOp.getOp k :: rest =>
      let value := (redisGet simCfg st k).1
      let res := applyTraceRedis simCfg st rest
      (res.1, value :: res.2)

/-- Sequential replay of a trace against the uncached tier. -/
def applyTraceDb (simCfg : SimulationConfig) (st : DbState) :
    List TraceOp → DbState × List (Option String)
  | [] => (st, [])
  | TraceOp.setOp k v _ :: rest => applyTraceDb simCfg (dbSet st k v) rest
  | TraceOp.getOp k :: rest =>
      let value := (dbGet simCfg st k).1
      let res := applyTraceDb simCfg st rest
      (res.1, value :: res.2)

/-- An operation of the cached tier's full public interface. -/
inductive RedisOp where
  | setOp (key value : String) (cached : Bool)
  | getOp (key : String)
  | existsOp (key : String)
  | delOp (key : String)
  | setCachedOp (key : String) (cached : Bool)
  | getCachedStatusOp (key : String)
  | flushAllOp
deriving DecidableEq, Repr

/-- Effect of one cached-tier operation on the tier's state (reads leave
it unchanged). -/
def redisStep (st : RedisState) : RedisOp → RedisState
  | RedisOp.setOp k v c => redisSet st k v c
  | RedisOp.getOp _ => st
  | RedisOp.existsOp _ => st
  | RedisOp.delOp k => (redisDel st k).1
  | RedisOp.setCachedOp k c => (redisSetCached st k c).1
  | RedisOp.getCachedStatusOp _ => st
  | RedisOp.flushAllOp => (redisFlushAll st).1

/-- State of the cached tier after a sequence of operations. -/
def redisRun (st : RedisState) (ops : List RedisOp) : RedisState :=
  ops.foldl redisStep st

/-- Hot-cache/backing-store inclusion: every cached key is in the backing
store with the same value. -/
def cacheSubStore (st : RedisState) : Prop :=
  ∀ k v, st.redisCache k = some v → st.redisStore k = some v

/-- Draw assignment in which every draw is 0 (a legal value of
`Math.random()`). -/
def zeroDraws : Draws :=
  ⟨fun _ => 0, fun _ => 0, fun _ => 0, fun _ => 0, fun _ _ => 0, fun _ _ => 0⟩

/-- Configuration whose operationType is outside the recognised set. -/
def badTypeConfig : Config := ⟨"del", "redis", 5, 3, "1:1", "1:1", "Bad"⟩

/-- Valid SET-mode configuration on the cached tier. -/
def setConfig : Config := ⟨"set", "redis", 2, 1, "1:1", "1:1", "S"⟩

/-- Valid GET-mode configuration on the cached tier with one request. -/
def getConfig : Config := ⟨"get", "redis", 1, 1, "1:1", "1:1", "G"⟩

/-- Valid SET-mode configuration on the uncached tier. -/
def dbConfig : Config := ⟨"set", "db", 2, 1, "1:1", "1:1", "D"⟩

/-- SET-mode configuration with cacheability ratio all-cached. -/
def allCachedConfig : Config := ⟨"set", "redis", 1, 1, "1:1", "1:0", "C"⟩

/-- SET-mode configuration with cacheability ratio all-uncached. -/
def noneCachedConfig : Config := ⟨"set", "redis", 1, 1, "1:1", "0:1", "U"⟩

/-- Valid MIXED-mode configuration with a 1:1 ratio and four requests. -/
def mixedConfig : Config := ⟨"mixed", "redis", 4, 1, "1:1", "1:1", "M"⟩

/-- Target number of SET-classified iterations of a MIXED run, the
claim's formula floor(requestCount * setWeight / (setWeight + getWeight)). -/
def mixedSetTarget (a b : ℕ) (requests : Int) : ℤ :=
  ⌊(a : ℚ) / ((a : ℚ) + b) * (requests : ℚ)⌋

/-- Target number of GET-classified iterations of a MIXED run:
requestCount - setOps. -/
def mixedGetTarget (a b : ℕ) (requests : Int) : ℤ :=
  requests - mixedSetTarget a b requests

/-! Basic computation lemmas for the JavaScript-number model. -/

theorem JsNum.add_num_num (a b : ℚ) : JsNum.add (.num a) (.num b) = .num (a + b) := rfl

theorem JsNum.sub_num_num (a b : ℚ) : JsNum.sub (.num a) (.num b) = .num (a - b) := rfl

theorem JsNum.mul_num_num (a b : ℚ) : JsNum.mul (.num a) (.num b) = .num (a * b) := rfl

theorem JsNum.lt_num_num (a b : ℚ) : JsNum.lt (.num a) (.num b) = decide (a < b) := rfl

theorem JsNum.le_num_num (a b : ℚ) : JsNum.le (.num a) (.num b) = decide (a ≤ b) := rfl

theorem JsNum.floorJs_num (a : ℚ) : (JsNum.num a).floorJs = .num (⌊a⌋ : ℤ) := rfl

theorem JsNum.minJs_num_num (a b : ℚ) : JsNum.minJs (.num a) (.num b) = .num (min a b) := rfl

theorem JsNum.div_num_num (a b : ℚ) (h : b ≠ 0) :
    JsNum.div (.num a) (.num b) = .num (a / b) := by
  simp [JsNum.div, h]

theorem JsNum.div_num_zero (a : ℚ) (h : 0 < a) :
    JsNum.div (.num a) (.num 0) = .posInf := by
  simp [JsNum.div, h]

/-- Every parsed ratio component is NaN or a natural number. -/
theorem jsNumber_cases (s : String) :
    jsNumber s = .nan ∨ ∃ n : ℕ, jsNumber s = .num (n : ℚ) := by
  unfold jsNumber
  split
  · exact Or.inr ⟨0, by norm_num⟩
  · cases hd : decimalNatAux s.toList 0 with
    | none => exact Or.inl rfl
    | some n => exact Or.inr ⟨n, rfl⟩

/-- Case analysis on the two components of a parsed ratio string. -/
theorem parseRatioPair_cases (s : String) :
    ((parseRatioPair s).1 = .nan ∨ ∃ n : ℕ, (parseRatioPair s).1 = .num (n : ℚ)) ∧
    ((parseRatioPair s).2 = .nan ∨ ∃ n : ℕ, (parseRatioPair s).2 = .num (n : ℚ)) := by
  unfold parseRatioPair
  cases hl : splitOnColon s.toList with
  | nil => exact ⟨Or.inl rfl, Or.inl rfl⟩
  | cons a t =>
      cases t with
      | nil => exact ⟨jsNumber_cases _, Or.inl rfl⟩
      | cons b t2 => exact ⟨jsNumber_cases _, jsNumber_cases _⟩

/-- Latency drawn by `simulateLatency` lies in the closed interval
`[min, max]` for every draw in `[0, 1)`. -/
theorem simulateLatency_bounds (min max r : ℚ) (h1 : min ≤ max) (h2 : 0 ≤ r)
    (h3 : r < 1) :
    min ≤ simulateLatency min max r ∧ simulateLatency min max r ≤ max := by
  unfold simulateLatency
  constructor
  · nlinarith
  · nlinarith

/-- The empty cached-tier state satisfies the inclusion invariant. -/
theorem emptyRedis_cacheSubStore : cacheSubStore emptyRedis := by
  intro k v h
  simp [emptyRedis] at h

/-- Each cached-tier operation preserves the hot-cache/backing-store
inclusion invariant. -/
theorem redisStep_cacheSubStore (st : RedisState) (op : RedisOp)
    (h : cacheSubStore st) : cacheSubStore (redisStep st op) := by
  cases op with
  | getOp _ => exact h
  | existsOp _ => exact h
  | getCachedStatusOp _ => exact h
  | flushAllOp => intro k v hk; simp [redisStep, redisFlushAll] at hk
  | delOp k0 =>
      intro k v hk
      by_cases hkk : k = k0
      · simp [redisStep, redisDel, mapDel, hkk] at hk
      · simp [redisStep, redisDel, mapDel, hkk] at hk ⊢
        exact h k v hk
  | setOp k0 v0 c =>
      intro k v hk
      by_cases hkk : k = k0
      · subst hkk
        cases c with
        | true =>
            simp [redisStep, redisSet, mapSet] at hk ⊢
            exact hk
        | false =>
            exfalso
            simp only [redisStep, redisSet, Bool.false_eq_true, if_false] at hk
            split at hk
            · simp [mapDel] at hk
            · rename_i hnone
              rw [Option.not_isSome_iff_eq_none] at hnone
              rw [hnone] at hk
              cases hk
      · cases c with
        | true =>
            simp [redisStep, redisSet, mapSet, hkk] at hk ⊢
            exact h k v hk
        | false =>
            simp only [redisStep, redisSet, Bool.false_eq_true, if_false] at hk ⊢
            simp only [mapSet, if_neg hkk]
            split at hk
            · simp only [mapDel, if_neg hkk] at hk
              exact h k v hk
            · exact h k v hk
  | setCachedOp k0 c =>
      intro k v hk
      cases hst : st.redisStore k0 with
      | none =>
          simp only [redisStep, redisSetCached, hst] at hk ⊢
          exact h k v hk
      | some v1 =>
          cases c with
          | true =>
              by_cases hkk : k = k0
              · subst hkk
                simp [redisStep, redisSetCached, hst, mapSet] at hk ⊢
                rw [← hk]
              · simp [redisStep, redisSetCached, hst, mapSet, hkk] at hk ⊢
                exact h k v hk
          | false =>
              by_cases hkk : k = k0
              · simp [redisStep, redisSetCached, hst, mapDel, hkk] at hk
              · simp [redisStep, redisSetCached, hst, mapDel, hkk] at hk ⊢
                exact h k v hk

/-- The inclusion invariant holds after any operation sequence from an
invariant-satisfying start state. -/
theorem redisRun_cacheSubStore (st : RedisState) (ops : List RedisOp)
    (h : cacheSubStore st) : cacheSubStore (redisRun st ops) := by
  induction ops generalizing st with
  | nil => exact h
  | cons op rest ih =>
      exact ih (redisStep st op) (redisStep_cacheSubStore st op h)

/-- C10: starting from empty stores, after any sequence of cached-tier
operations every key present in the hot cache is present in the backing
store mapped to the same value; moreover a write with cacheable = false
leaves no hot-cache entry for its key, del removes the key from both
mappings, and flushAll empties both. -/
theorem c10_cache_inclusion_invariant (ops : List RedisOp) (k v : String) :
    ((redisRun emptyRedis ops).redisCache k = some v →
      (redisRun emptyRedis ops).redisStore k = some v) ∧
    (∀ st : RedisState, ∀ value, (redisSet st k value false).redisCache k = none) ∧
    (∀ st : RedisState, (redisDel st k).1.redisStore k = none ∧
      (redisDel st k).1.redisCache k = none) ∧
    (∀ st : RedisState, (redisFlushAll st).1.redisStore k = none ∧
      (redisFlushAll st).1.redisCache k = none) := by
  refine ⟨fun hk => redisRun_cacheSubStore emptyRedis ops emptyRedis_cacheSubStore k v hk,
    ?_, ?_, ?_⟩
  · intro st value
    simp only [redisSet, Bool.false_eq_true, if_false]
    split
    · simp [mapDel]
    · rename_i hnone
      exact Option.not_isSome_iff_eq_none.mp hnone
  · intro st
    constructor <;> simp [redisDel, mapDel]
  · intro st
    exact ⟨rfl, rfl⟩

/-- C10 witness: after the single cacheable write of "x" at key "a", the
hot cache holds the key, and the claim theorem yields that the backing
store holds the same value. -/
theorem c10_witness :
    (redisRun emptyRedis [RedisOp.setOp "a" "x" true]).redisCache "a" = some "x" ∧
    (redisRun emptyRedis [RedisOp.setOp "a" "x" true]).redisStore "a" = some "x" :=
  ⟨by decide, (c10_cache_inclusion_invariant [RedisOp.setOp "a" "x" true] "a" "x").1 (by decide)⟩

/-- C9: for every pair min ≤ max and every random draw in [0, 1), the
latency simulator suspends for a duration within the closed interval
[min, max] milliseconds (its promise resolves with no value; the model
returns the delay itself). -/
theorem c9_delay_within_range (min max r : ℚ) (h1 : min ≤ max) (h2 : 0 ≤ r)
    (h3 : r < 1) :
    min ≤ simulateLatency min max r ∧ simulateLatency min max r ≤ max :=
  simulateLatency_bounds min max r h1 h2 h3

/-- C9 witness: at min = 2, max = 15 and draw 1/2 the delay lies in [2, 15]. -/
theorem c9_witness :
    (2 : ℚ) ≤ 15 ∧ (0 : ℚ) ≤ 1 / 2 ∧ (1 / 2 : ℚ) < 1 ∧
    2 ≤ simulateLatency 2 15 (1 / 2) ∧ simulateLatency 2 15 (1 / 2) ≤ 15 :=
  ⟨by norm_num, by norm_num, by norm_num,
    (c9_delay_within_range 2 15 (1 / 2) (by norm_num) (by norm_num) (by norm_num)).1,
    (c9_delay_within_range 2 15 (1 / 2) (by norm_num) (by norm_num) (by norm_num)).2⟩

/-- C5: on the cached tier, a get whose key is in the hot cache returns the
hot-cache value and pays only the jitter delay range (whose delays lie in
the jitter interval for every draw); a get whose key is absent from the
hot cache pays the cached-tier latency range and returns the
backing-store value, or none when the backing store lacks the key. -/
theorem c5_cached_get_paths (simCfg : SimulationConfig) (st : RedisState) (key : String) :
    (∀ v, st.redisCache key = some v →
      redisGet simCfg st key = (some v, simCfg.networkJitterMs)) ∧
    (st.redisCache key = none →
      redisGet simCfg st key = (st.redisStore key, simCfg.redisLatencyMs)) ∧
    (∀ r : ℚ, 0 ≤ r → r < 1 →
      simCfg.networkJitterMs.min ≤ simCfg.networkJitterMs.max →
      simCfg.networkJitterMs.min ≤
          simulateLatency simCfg.networkJitterMs.min simCfg.networkJitterMs.max r ∧
        simulateLatency simCfg.networkJitterMs.min simCfg.networkJitterMs.max r ≤
          simCfg.networkJitterMs.max) := by
  refine ⟨?_, ?_, ?_⟩
  · intro v hv
    simp [redisGet, hv]
  · intro hv
    simp [redisGet, hv]
  · intro r h2 h3 h1
    exact simulateLatency_bounds _ _ r h1 h2 h3

/-- C5 witness: after a cacheable write of "v" at "k", a get of "k" hits
the hot cache: it returns "v" with the jitter delay range. -/
theorem c5_witness :
    (redisSet emptyRedis "k" "v" true).redisCache "k" = some "v" ∧
    redisGet defaultSimulationConfig (redisSet emptyRedis "k" "v" true) "k"
      = (some "v", defaultSimulationConfig.networkJitterMs) :=
  ⟨by decide, (c5_cached_get_paths defaultSimulationConfig
    (redisSet emptyRedis "k" "v" true) "k").1 "v" (by decide)⟩

/-- C8: the benchmark result echoes requestCount and payloadSize exactly as
configured, echoes cacheHitRatio on the cached tier, and forces it to the
all-uncached pair "0:1" on any other tier. -/
theorem c8_result_echoes_config (config : Config) (d : Draws) (duration : ℚ)
    (idDraw : String) :
    (runBenchmark config d duration idDraw).1.requests = config.requests ∧
    (runBenchmark config d duration idDraw).1.size = config.size ∧
    (config.storage = "redis" →
      (runBenchmark config d duration idDraw).1.cachedRatio = config.cachedRatio) ∧
    (config.storage ≠ "redis" →
      (runBenchmark config d duration idDraw).1.cachedRatio = "0:1") := by
  refine ⟨rfl, rfl, ?_, ?_⟩ <;> intro h <;> simp [runBenchmark, h]

/-- C8 witness: a run on the uncached tier echoes requests and size and
reports the forced "0:1" cacheHitRatio. -/
theorem c8_witness :
    dbConfig.storage ≠ "redis" ∧
    (runBenchmark dbConfig zeroDraws 1 "x").1.requests = dbConfig.requests ∧
    (runBenchmark dbConfig zeroDraws 1 "x").1.size = dbConfig.size ∧
    (runBenchmark dbConfig zeroDraws 1 "x").1.cachedRatio = "0:1" :=
  ⟨by decide,
    (c8_result_echoes_config dbConfig zeroDraws 1 "x").1,
    (c8_result_echoes_config dbConfig zeroDraws 1 "x").2.1,
    (c8_result_echoes_config dbConfig zeroDraws 1 "x").2.2.2 (by decide)⟩

/-- C2 (amended): for every configuration with positive requestCount and
every positive measured duration, opsPerSecond is the finite non-negative
number requests / duration. At a measured duration of exactly zero the
code instead produces Infinity (see the counterexample): it does not
clamp. -/
theorem c2_ops_finite_positive_duration (config : Config) (d : Draws) (duration : ℚ)
    (idDraw : String) (hreq : 0 < config.requests) (hdur : 0 < duration) :
    (runBenchmark config d duration idDraw).1.opsPerSecond
      = JsNum.num ((config.requests : ℚ) / duration) ∧
    ((runBenchmark config d duration idDraw).1.opsPerSecond).isFinite = true ∧
    0 ≤ (config.requests : ℚ) / duration := by
  have h1 : (runBenchmark config d duration idDraw).1.opsPerSecond
      = JsNum.div (.num (config.requests : ℚ)) (.num duration) := rfl
  rw [h1, JsNum.div_num_num (config.requests : ℚ) duration (ne_of_gt hdur)]
  refine ⟨rfl, rfl, div_nonneg ?_ hdur.le⟩
  exact_mod_cast hreq.le

/-- C2 counterexample: the valid configuration setConfig (2 requests,
payload size 1) with the non-negative measured duration 0 yields
opsPerSecond = Infinity — the aggregator does not clamp the zero-duration
division to 0 or a sentinel, contradicting the claim. -/
theorem c2_counterexample :
    (runBenchmark setConfig zeroDraws 0 "x").1.opsPerSecond = JsNum.posInf ∧
    ((runBenchmark setConfig zeroDraws 0 "x").1.opsPerSecond).isFinite = false := by
  constructor <;> decide

/-- C2 witness: setConfig at duration 2 gives the finite non-negative
throughput 2 / 2. -/
theorem c2_witness :
    (0 : Int) < setConfig.requests ∧ (0 : ℚ) < 2 ∧
    (runBenchmark setConfig zeroDraws 2 "x").1.opsPerSecond
      = JsNum.num ((setConfig.requests : ℚ) / 2) ∧
    ((runBenchmark setConfig zeroDraws 2 "x").1.opsPerSecond).isFinite = true :=
  ⟨by norm_num [setConfig], by norm_num,
    (c2_ops_finite_positive_duration setConfig zeroDraws 2 "x" (by norm_num [setConfig])
      (by norm_num)).1,
    (c2_ops_finite_positive_duration setConfig zeroDraws 2 "x" (by norm_num [setConfig])
      (by norm_num)).2.1⟩

/-- With a non-positive request count the MIXED pre-population loop runs
zero times, whatever the ratio string parses to. -/
theorem mixedPrePopCount_nonpos (ratio : String) (requests : Int)
    (hreq : requests ≤ 0) : mixedPrePopCount ratio requests = 0 := by
  have hq : (requests : ℚ) ≤ 0 := by exact_mod_cast hreq
  unfold mixedPrePopCount mixedParams
  dsimp only
  obtain ⟨h1, h2⟩ := parseRatioPair_cases ratio
  rcases h1 with h1 | ⟨a, h1⟩
  · rw [h1]
    simp [JsNum.add, JsNum.div, JsNum.mul, JsNum.floorJs, JsNum.sub, JsNum.minJs,
      JsNum.loopCount]
  · rcases h2 with h2 | ⟨b, h2⟩
    · rw [h1, h2]
      simp [JsNum.add, JsNum.div, JsNum.mul, JsNum.floorJs, JsNum.sub, JsNum.minJs,
        JsNum.loopCount]
    · rw [h1, h2, JsNum.add_num_num]
      by_cases hs : (a : ℚ) + (b : ℚ) = 0
      · have ha : (a : ℚ) = 0 := by nlinarith [@Nat.cast_nonneg ℚ _ a, @Nat.cast_nonneg ℚ _ b]
        rw [hs, ha]
        simp [JsNum.div, JsNum.mul, JsNum.floorJs, JsNum.sub, JsNum.minJs, JsNum.loopCount]
      · rw [JsNum.div_num_num _ _ hs, JsNum.mul_num_num, JsNum.floorJs_num,
          JsNum.sub_num_num, JsNum.div_num_num _ _ (by norm_num : (2 : ℚ) ≠ 0),
          JsNum.minJs_num_num]
        simp only [JsNum.loopCount]
        have hmin : min ((requests : ℚ) - ((⌊(a : ℚ) / ((a : ℚ) + b) * (requests : ℚ)⌋ : ℤ) : ℚ))
            ((requests : ℚ) / 2) ≤ 0 :=
          le_trans (min_le_right _ _) (by linarith)
        have hceil : ⌈min ((requests : ℚ) - ((⌊(a : ℚ) / ((a : ℚ) + b) * (requests : ℚ)⌋ : ℤ) : ℚ))
            ((requests : ℚ) / 2)⌉ ≤ 0 := by
          rw [Int.ceil_le]
          exact_mod_cast hmin
        exact Int.toNat_eq_zero.mpr hceil

/-- C1 (amended): for every configuration whose operationType is outside
the set checked by the code, or whose requestCount is non-positive, the
generator issues no storage operation — the storage tiers are left
untouched — but it does not fail with InvalidConfiguration: the code has
no validation and still returns a BenchmarkResult echoing the
configuration. -/
theorem c1_no_validation_no_ops (config : Config) (d : Draws) (duration : ℚ)
    (idDraw : String)
    (h : (config.type ≠ "set" ∧ config.type ≠ "get" ∧ config.type ≠ "mixed") ∨
      config.requests ≤ 0) :
    (runBenchmark config d duration idDraw).2 = [] ∧
    (runBenchmark config d duration idDraw).1.requests = config.requests ∧
    (runBenchmark config d duration idDraw).1.name = config.name := by
  refine ⟨?_, rfl, rfl⟩
  rcases h with ⟨h1, h2, h3⟩ | hreq
  · simp [runBenchmark, h1, h2, h3]
  · have hn : config.requests.toNat = 0 := Int.toNat_of_nonpos hreq
    by_cases t1 : config.type = "set"
    · simp [runBenchmark, t1, hn, setModeTrace]
    · by_cases t2 : config.type = "get"
      · simp [runBenchmark, t1, t2, hn, getModeTrace, getPopTrace, getReadTrace]
      · by_cases t3 : config.type = "mixed"
        · simp [runBenchmark, t1, t2, t3, hn, mixedPreTrace, mixedMain, mixedIter,
            mixedPrePopCount_nonpos config.ratio config.requests hreq]
        · simp [runBenchmark, t1, t2, t3]

/-- C1 counterexample: at the configuration with the unrecognised
operationType "del" (5 requests, payload 3), runBenchmark issues no
storage operation, yet it does not fail: it returns a full
BenchmarkResult (id "run-abc", requests echoed), contradicting the claim
that no BenchmarkResult is returned. -/
theorem c1_counterexample :
    badTypeConfig.type = "del" ∧
    (runBenchmark badTypeConfig zeroDraws 1 "abc").2 = [] ∧
    (runBenchmark badTypeConfig zeroDraws 1 "abc").1.id = "run-abc" ∧
    (runBenchmark badTypeConfig zeroDraws 1 "abc").1.requests = badTypeConfig.requests :=
  ⟨rfl, by decide, rfl, rfl⟩

/-- C1 witness: the amended theorem applied at the "del"-typed
configuration. -/
theorem c1_witness :
    (badTypeConfig.type ≠ "set" ∧ badTypeConfig.type ≠ "get" ∧
      badTypeConfig.type ≠ "mixed") ∧
    (runBenchmark badTypeConfig zeroDraws 1 "abc").2 = [] ∧
    (runBenchmark badTypeConfig zeroDraws 1 "abc").1.name = badTypeConfig.name :=
  ⟨⟨by decide, by decide, by decide⟩,
    (c1_no_validation_no_ops badTypeConfig zeroDraws 1 "abc"
      (Or.inl ⟨by decide, by decide, by decide⟩)).1,
    (c1_no_validation_no_ops badTypeConfig zeroDraws 1 "abc"
      (Or.inl ⟨by decide, by decide, by decide⟩)).2.2⟩

/-- Cacheability probability of ratio "1:0" is exactly 1. -/
theorem cachedProbabilityOf_all : cachedProbabilityOf "1:0" = JsNum.num 1 := by
  have hp : parseRatioPair "1:0" = (JsNum.num 1, JsNum.num 0) := by decide
  simp only [cachedProbabilityOf, hp, JsNum.add_num_num]
  norm_num [jsOr, JsNum.truthy, JsNum.div]

/-- Cacheability probability of ratio "0:1" is exactly 0. -/
theorem cachedProbabilityOf_none : cachedProbabilityOf "0:1" = JsNum.num 0 := by
  have hp : parseRatioPair "0:1" = (JsNum.num 0, JsNum.num 1) := by decide
  simp only [cachedProbabilityOf, hp, JsNum.add_num_num]
  norm_num [jsOr, JsNum.truthy, JsNum.div]

/-- Every write of the SET-mode trace on the cached tier carries a flag of
the Bernoulli form `cachePop i < p`. -/
theorem setModeTrace_flags (size : Int) (p : JsNum) (d : Draws) (n : ℕ)
    (P : Bool → Prop) (hpop : ∀ i, P (JsNum.lt (.num (d.cachePop i)) p)) :
    ∀ k v c, TraceOp.setOp k v c ∈ setModeTrace "redis" size p d n → P c := by
  intro k v c hmem
  simp only [setModeTrace, List.mem_map, List.mem_range] at hmem
  obtain ⟨i, _, heq⟩ := hmem
  simp only [reduceIte] at heq
  obtain ⟨-, -, hc⟩ := TraceOp.setOp.inj heq
  rw [← hc]
  exact hpop i

/-- Every write of the GET-mode trace on the cached tier carries a flag of
the Bernoulli form `cachePop i < p` (the read half has no writes). -/
theorem getModeTrace_flags (size : Int) (p : JsNum) (d : Draws) (n : ℕ)
    (P : Bool → Prop) (hpop : ∀ i, P (JsNum.lt (.num (d.cachePop i)) p)) :
    ∀ k v c, TraceOp.setOp k v c ∈ getModeTrace "redis" size p d n → P c := by
  intro k v c hmem
  simp only [getModeTrace, getPopTrace, getReadTrace, List.mem_append, List.mem_map,
    List.mem_range] at hmem
  rcases hmem with ⟨i, _, heq⟩ | ⟨i, _, heq⟩
  · simp only [reduceIte] at heq
    obtain ⟨-, -, hc⟩ := TraceOp.setOp.inj heq
    rw [← hc]
    exact hpop i
  · cases heq

/-- Every write of the MIXED pre-population trace on the cached tier
carries a flag of the Bernoulli form `cachePop i < p`. -/
theorem mixedPreTrace_flags (size : Int) (p : JsNum) (d : Draws) (m : ℕ)
    (P : Bool → Prop) (hpop : ∀ i, P (JsNum.lt (.num (d.cachePop i)) p)) :
    ∀ k v c, TraceOp.setOp k v c ∈ mixedPreTrace "redis" size p d m → P c := by
  intro k v c hmem
  simp only [mixedPreTrace, List.mem_map, List.mem_range] at hmem
  obtain ⟨i, _, heq⟩ := hmem
  simp only [reduceIte] at heq
  obtain ⟨-, -, hc⟩ := TraceOp.setOp.inj heq
  rw [← hc]
  exact hpop i

/-- Every write of the MIXED main-loop trace on the cached tier carries a
flag of the Bernoulli form `cacheMain i < p`. -/
theorem mixedIter_flags (size : Int) (p w setOps getOps : JsNum) (requests : Int)
    (d : Draws) (P : Bool → Prop)
    (hmain : ∀ i, P (JsNum.lt (.num (d.cacheMain i)) p)) :
    ∀ n k v c,
      TraceOp.setOp k v c ∈ (mixedIter "redis" size p w setOps getOps requests d n).2.2 →
      P c := by
  intro n
  induction n with
  | zero =>
      intro k v c h
      simp [mixedIter] at h
  | succ m ih =>
      intro k v c h
      rw [mixedIter, mixedStep] at h
      dsimp only at h
      split at h
      · simp only [reduceIte, List.mem_append, List.mem_singleton] at h
        rcases h with h | h
        · exact ih k v c h
        · obtain ⟨-, -, hc⟩ := TraceOp.setOp.inj h.symm
          rw [← hc]
          exact hmain m
      · simp only [List.mem_append, List.mem_singleton] at h
        rcases h with h | h
        · exact ih k v c h
        · cases h

/-- Every write issued by runBenchmark on the cached tier carries a
cacheability flag of the Bernoulli form `draw < cachedProbability`. -/
theorem runBenchmark_redis_flags (config : Config) (d : Draws) (duration : ℚ)
    (idDraw : String) (hred : config.storage = "redis") (P : Bool → Prop)
    (hpop : ∀ i, P (JsNum.lt (.num (d.cachePop i)) (cachedProbabilityOf config.cachedRatio)))
    (hmain : ∀ i, P (JsNum.lt (.num (d.cacheMain i)) (cachedProbabilityOf config.cachedRatio))) :
    ∀ k v c, TraceOp.setOp k v c ∈ (runBenchmark config d duration idDraw).2 → P c := by
  intro k v c hmem
  simp only [runBenchmark] at hmem
  rw [hred] at hmem
  by_cases t1 : config.type = "set"
  · rw [if_pos t1] at hmem
    exact setModeTrace_flags config.size _ d _ P hpop k v c hmem
  · rw [if_neg t1] at hmem
    by_cases t2 : config.type = "get"
    · rw [if_pos t2] at hmem
      exact getModeTrace_flags config.size _ d _ P hpop k v c hmem
    · rw [if_neg t2] at hmem
      by_cases t3 : config.type = "mixed"
      · rw [if_pos t3, List.mem_append] at hmem
        rcases hmem with hmem | hmem
        · exact mixedPreTrace_flags config.size _ d _ P hpop k v c hmem
        · rw [mixedMain] at hmem
          exact mixedIter_flags config.size _ _ _ _ config.requests d P hmain _ k v c hmem
      · rw [if_neg t3] at hmem
        cases hmem

/-- C6: on the cached tier with cacheHitRatio "1:0", every benchmark write
is marked cacheable — the Bernoulli trial succeeds for every draw in
[0, 1) — and with "0:1" no benchmark write is marked cacheable: the trial
fails for every draw. -/
theorem c6_cache_ratio_extremes (config : Config) (d : Draws) (duration : ℚ)
    (idDraw : String) (hred : config.storage = "redis")
    (hd1 : ∀ i, 0 ≤ d.cachePop i ∧ d.cachePop i < 1)
    (hd2 : ∀ i, 0 ≤ d.cacheMain i ∧ d.cacheMain i < 1) :
    (config.cachedRatio = "1:0" → ∀ k v c,
      TraceOp.setOp k v c ∈ (runBenchmark config d duration idDraw).2 → c = true) ∧
    (config.cachedRatio = "0:1" → ∀ k v c,
      TraceOp.setOp k v c ∈ (runBenchmark config d duration idDraw).2 → c = false) := by
  constructor
  · intro hcr
    refine runBenchmark_redis_flags config d duration idDraw hred (fun b => b = true)
      (fun i => ?_) (fun i => ?_)
    · rw [hcr, cachedProbabilityOf_all, JsNum.lt_num_num]
      exact decide_eq_true ((hd1 i).2)
    · rw [hcr, cachedProbabilityOf_all, JsNum.lt_num_num]
      exact decide_eq_true ((hd2 i).2)
  · intro hcr
    refine runBenchmark_redis_flags config d duration idDraw hred (fun b => b = false)
      (fun i => ?_) (fun i => ?_)
    · rw [hcr, cachedProbabilityOf_none, JsNum.lt_num_num]
      exact decide_eq_false (not_lt.mpr (hd1 i).1)
    · rw [hcr, cachedProbabilityOf_none, JsNum.lt_num_num]
      exact decide_eq_false (not_lt.mpr (hd2 i).1)

/-- C6 witness: with all draws 0, the single write of the "1:0" run is
marked cacheable, and the single write of the "0:1" run is not. -/
theorem c6_witness :
    allCachedConfig.cachedRatio = "1:0" ∧ noneCachedConfig.cachedRatio = "0:1" ∧
    JsNum.lt (JsNum.num 0) (cachedProbabilityOf "1:0") = true ∧
    JsNum.lt (JsNum.num 0) (cachedProbabilityOf "0:1") = false := by
  have hmem1 : TraceOp.setOp ("benchmark:" ++ toString 0)
      (generateValue 1 (zeroDraws.valPop 0))
      (JsNum.lt (.num (zeroDraws.cachePop 0)) (cachedProbabilityOf "1:0"))
      ∈ (runBenchmark allCachedConfig zeroDraws 1 "x").2 := by
    show _ ∈ setModeTrace "redis" 1 (cachedProbabilityOf "1:0") zeroDraws 1
    simp [setModeTrace, List.range_succ]
  have hmem2 : TraceOp.setOp ("benchmark:" ++ toString 0)
      (generateValue 1 (zeroDraws.valPop 0))
      (JsNum.lt (.num (zeroDraws.cachePop 0)) (cachedProbabilityOf "0:1"))
      ∈ (runBenchmark noneCachedConfig zeroDraws 1 "x").2 := by
    show _ ∈ setModeTrace "redis" 1 (cachedProbabilityOf "0:1") zeroDraws 1
    simp [setModeTrace, List.range_succ]
  refine ⟨rfl, rfl, ?_, ?_⟩
  · exact (c6_cache_ratio_extremes allCachedConfig zeroDraws 1 "x" rfl
      (fun i => ⟨le_refl 0, (by norm_num : (0 : ℚ) < 1)⟩)
      (fun i => ⟨le_refl 0, (by norm_num : (0 : ℚ) < 1)⟩)).1 rfl
      ("benchmark:" ++ toString 0) (generateValue 1 (zeroDraws.valPop 0)) _ hmem1
  · exact (c6_cache_ratio_extremes noneCachedConfig zeroDraws 1 "x" rfl
      (fun i => ⟨le_refl 0, (by norm_num : (0 : ℚ) < 1)⟩)
      (fun i => ⟨le_refl 0, (by norm_num : (0 : ℚ) < 1)⟩)).2 rfl
      ("benchmark:" ++ toString 0) (generateValue 1 (zeroDraws.valPop 0)) _ hmem2

/-- C7 (amended): for SET with requestCount N the i-th write uses exactly
the key benchmark:<i>; for GET the population phase instead uses the keys
benchmark:get:<i> — a key scheme different from SET's. -/
theorem c7_key_schemes (config : Config) (d : Draws) (duration : ℚ) (idDraw : String) :
    (config.type = "set" → ∀ i, i < config.requests.toNat → ∃ v c,
      ((runBenchmark config d duration idDraw).2).get? i
        = some (TraceOp.setOp ("benchmark:" ++ toString i) v c)) ∧
    (config.type = "get" → ∀ i, i < config.requests.toNat → ∃ v c,
      ((runBenchmark config d duration idDraw).2).get? i
        = some (TraceOp.setOp ("benchmark:get:" ++ toString i) v c)) := by
  constructor
  · intro ht i hi
    have htr : (runBenchmark config d duration idDraw).2
        = setModeTrace config.storage config.size (cachedProbabilityOf config.cachedRatio)
            d config.requests.toNat := by
      simp [runBenchmark, ht]
    rw [htr, setModeTrace, List.get?_map, List.get?_range hi]
    by_cases hs : config.storage = "redis"
    · exact ⟨generateValue config.size (d.valPop i),
        JsNum.lt (.num (d.cachePop i)) (cachedProbabilityOf config.cachedRatio),
        by simp [hs]⟩
    · exact ⟨generateValue config.size (d.valPop i), false, by simp [hs]⟩
  · intro ht i hi
    have htr : (runBenchmark config d duration idDraw).2
        = getPopTrace config.storage config.size (cachedProbabilityOf config.cachedRatio)
            d config.requests.toNat ++ getReadTrace config.requests.toNat := by
      simp [runBenchmark, ht, getModeTrace]
    have hlen : i < (getPopTrace config.storage config.size
        (cachedProbabilityOf config.cachedRatio) d config.requests.toNat).length := by
      simpa [getPopTrace] using hi
    rw [htr, List.get?_append hlen, getPopTrace, List.get?_map, List.get?_range hi]
    by_cases hs : config.storage = "redis"
    · exact ⟨generateValue config.size (d.valPop i),
        JsNum.lt (.num (d.cachePop i)) (cachedProbabilityOf config.cachedRatio),
        by simp [hs]⟩
    · exact ⟨generateValue config.size (d.valPop i), false, by simp [hs]⟩

/-- C7 counterexample: in the GET run with one request, the population
write of iteration 0 uses key "benchmark:get:0", not the SET-mode scheme
key "benchmark:0" that the claim asserts for the GET population phase. -/
theorem c7_counterexample :
    ((runBenchmark getConfig zeroDraws 1 "x").2).get? 0
      = some (TraceOp.setOp ("benchmark:get:" ++ toString 0)
          (generateValue 1 (zeroDraws.valPop 0))
          (JsNum.lt (JsNum.num (zeroDraws.cachePop 0)) (cachedProbabilityOf "1:1"))) ∧
    ("benchmark:get:" ++ toString 0 : String) ≠ "benchmark:" ++ toString 0 :=
  ⟨rfl, by decide⟩

/-- C7 witness: the key-scheme theorem applied to the SET and GET
configurations at index 0. -/
theorem c7_witness :
    setConfig.type = "set" ∧ getConfig.type = "get" ∧
    (((runBenchmark setConfig zeroDraws 1 "x").2).get? 0).isSome = true ∧
    (((runBenchmark getConfig zeroDraws 1 "y").2).get? 0).isSome = true := by
  refine ⟨rfl, rfl, ?_, ?_⟩
  · obtain ⟨v, c, h⟩ := (c7_key_schemes setConfig zeroDraws 1 "x").1 rfl 0 (by decide)
    rw [h]
    rfl
  · obtain ⟨v, c, h⟩ := (c7_key_schemes getConfig zeroDraws 1 "y").2 rfl 0 (by decide)
    rw [h]
    rfl

/-- Replay distributes over trace concatenation. -/
theorem applyTraceRedis_append (simCfg : SimulationConfig) (st : RedisState)
    (l1 l2 : List TraceOp) :
    applyTraceRedis simCfg st (l1 ++ l2)
      = ((applyTraceRedis simCfg (applyTraceRedis simCfg st l1).1 l2).1,
         (applyTraceRedis simCfg st l1).2
           ++ (applyTraceRedis simCfg (applyTraceRedis simCfg st l1).1 l2).2) := by
  induction l1 generalizing st with
  | nil => simp [applyTraceRedis]
  | cons op rest ih =>
      cases op with
      | setOp k v c => simp [applyTraceRedis, ih]
      | getOp k => simp [applyTraceRedis, ih]

/-- Replay on the uncached tier distributes over trace concatenation. -/
theorem applyTraceDb_append (simCfg : SimulationConfig) (st : DbState)
    (l1 l2 : List TraceOp) :
    applyTraceDb simCfg st (l1 ++ l2)
      = ((applyTraceDb simCfg (applyTraceDb simCfg st l1).1 l2).1,
         (applyTraceDb simCfg st l1).2
           ++ (applyTraceDb simCfg (applyTraceDb simCfg st l1).1 l2).2) := by
  induction l1 generalizing st with
  | nil => simp [applyTraceDb]
  | cons op rest ih =>
      cases op with
      | setOp k v c => simp [applyTraceDb, ih]
      | getOp k => simp [applyTraceDb, ih]

/-- A cached-tier write keeps every present backing-store key present and
makes its own key present. -/
theorem redisSet_store_isSome (st : RedisState) (k0 v0 : String) (c : Bool)
    (k : String) (h : (st.redisStore k).isSome = true ∨ k = k0) :
    (((redisSet st k0 v0 c).redisStore) k).isSome = true := by
  rcases h with h | rfl
  · simp only [redisSet, mapSet]
    split
    · rfl
    · exact h
  · simp [redisSet, mapSet]

/-- After replaying a trace, a backing-store key is present if it was
present before or some write in the trace targets it. -/
theorem applyTraceRedis_store_isSome (simCfg : SimulationConfig) (st : RedisState)
    (l : List TraceOp) (k : String)
    (h : (st.redisStore k).isSome = true ∨ ∃ v c, TraceOp.setOp k v c ∈ l) :
    ((((applyTraceRedis simCfg st l).1).redisStore) k).isSome = true := by
  induction l generalizing st with
  | nil =>
      rcases h with h | ⟨v, c, hm⟩
      · exact h
      · cases hm
  | cons op rest ih =>
      cases op with
      | setOp k0 v0 c0 =>
          show ((((applyTraceRedis simCfg (redisSet st k0 v0 c0) rest).1).redisStore) k).isSome
            = true
          apply ih
          rcases h with h | ⟨v, c, hm⟩
          · exact Or.inl (redisSet_store_isSome st k0 v0 c0 k (Or.inl h))
          · rcases List.mem_cons.mp hm with heq | hm2
            · obtain ⟨hk, -, -⟩ := TraceOp.setOp.inj heq
              exact Or.inl (redisSet_store_isSome st k0 v0 c0 k (Or.inr hk))
            · exact Or.inr ⟨v, c, hm2⟩
      | getOp k0 =>
          show ((((applyTraceRedis simCfg st rest).1).redisStore) k).isSome = true
          apply ih
          rcases h with h | ⟨v, c, hm⟩
          · exact Or.inl h
          · rcases List.mem_cons.mp hm with heq | hm2
            · cases heq
            · exact Or.inr ⟨v, c, hm2⟩

/-- After replaying a trace on the uncached tier, a key is present if it
was present before or some write in the trace targets it. -/
theorem applyTraceDb_store_isSome (simCfg : SimulationConfig) (st : DbState)
    (l : List TraceOp) (k : String)
    (h : (st k).isSome = true ∨ ∃ v c, TraceOp.setOp k v c ∈ l) :
    (((applyTraceDb simCfg st l).1) k).isSome = true := by
  induction l generalizing st with
  | nil =>
      rcases h with h | ⟨v, c, hm⟩
      · exact h
      · cases hm
  | cons op rest ih =>
      cases op with
      | setOp k0 v0 c0 =>
          show ((((applyTraceDb simCfg (dbSet st k0 v0) rest).1)) k).isSome = true
          apply ih
          rcases h with h | ⟨v, c, hm⟩
          · left
            simp only [dbSet, mapSet]
            split
            · rfl
            · exact h
          · rcases List.mem_cons.mp hm with heq | hm2
            · obtain ⟨hk, -, -⟩ := TraceOp.setOp.inj heq
              left
              simp [dbSet, mapSet, hk]
            · exact Or.inr ⟨v, c, hm2⟩
      | getOp k0 =>
          show ((((applyTraceDb simCfg st rest).1)) k).isSome = true
          apply ih
          rcases h with h | ⟨v, c, hm⟩
          · exact Or.inl h
          · rcases List.mem_cons.mp hm with heq | hm2
            · cases heq
            · exact Or.inr ⟨v, c, hm2⟩

/-- A cached-tier read of a key present in the backing store never
returns none (hit or miss). -/
theorem redisGet_isSome (simCfg : SimulationConfig) (st : RedisState) (k : String)
    (h : (st.redisStore k).isSome = true) : ((redisGet simCfg st k).1).isSome = true := by
  unfold redisGet
  split
  · rename_i hc
    simpa using hc
  · simpa using h

/-- Replaying a trace of reads whose keys are all present returns no none
value (cached tier). -/
theorem applyTraceRedis_reads_isSome (simCfg : SimulationConfig) (st : RedisState)
    (l : List TraceOp)
    (hall : ∀ op ∈ l, ∃ k, op = TraceOp.getOp k ∧ (st.redisStore k).isSome = true) :
    ∀ r ∈ (applyTraceRedis simCfg st l).2, r.isSome = true := by
  induction l with
  | nil => simp [applyTraceRedis]
  | cons op rest ih =>
      obtain ⟨k, hop, hk⟩ := hall op (List.mem_cons_self op rest)
      subst hop
      intro r hr
      simp only [applyTraceRedis, List.mem_cons] at hr
      rcases hr with rfl | hr
      · exact redisGet_isSome simCfg st k hk
      · exact ih (fun op hop => hall op (List.mem_cons_of_mem _ hop)) r hr

/-- Replaying a trace of reads whose keys are all present returns no none
value (uncached tier). -/
theorem applyTraceDb_reads_isSome (simCfg : SimulationConfig) (st : DbState)
    (l : List TraceOp)
    (hall : ∀ op ∈ l, ∃ k, op = TraceOp.getOp k ∧ (st k).isSome = true) :
    ∀ r ∈ (applyTraceDb simCfg st l).2, r.isSome = true := by
  induction l with
  | nil => simp [applyTraceDb]
  | cons op rest ih =>
      obtain ⟨k, hop, hk⟩ := hall op (List.mem_cons_self op rest)
      subst hop
      intro r hr
      simp only [applyTraceDb, dbGet, List.mem_cons] at hr
      rcases hr with rfl | hr
      · simpa [dbGet] using hk
      · exact ih (fun op hop => hall op (List.mem_cons_of_mem _ hop)) r hr

/-- Every key read by the GET read phase was written by the GET population
phase. -/
theorem getPopTrace_covers (storage : String) (size : Int) (p : JsNum) (d : Draws)
    (n : ℕ) (j : ℕ) (hj : j < n) :
    ∃ v c, TraceOp.setOp ("benchmark:get:" ++ toString j) v c
      ∈ getPopTrace storage size p d n := by
  by_cases hs : storage = "redis"
  · refine ⟨generateValue size (d.valPop j), JsNum.lt (.num (d.cachePop j)) p, ?_⟩
    simp only [getPopTrace, List.mem_map]
    exact ⟨j, List.mem_range.mpr hj, by simp [hs]⟩
  · refine ⟨generateValue size (d.valPop j), false, ?_⟩
    simp only [getPopTrace, List.mem_map]
    exact ⟨j, List.mem_range.mpr hj, by simp [hs]⟩

/-- Every element of the GET population trace is a write. -/
theorem getPopTrace_all_sets (storage : String) (size : Int) (p : JsNum) (d : Draws)
    (n : ℕ) : ∀ op ∈ getPopTrace storage size p d n, ∃ k v c, op = TraceOp.setOp k v c := by
  intro op hop
  simp only [getPopTrace, List.mem_map, List.mem_range] at hop
  obtain ⟨i, hi, rfl⟩ := hop
  split
  · exact ⟨_, _, _, rfl⟩
  · exact ⟨_, _, _, rfl⟩

/-- Replaying a trace of writes produces no read results (cached tier). -/
theorem applyTraceRedis_sets_results (simCfg : SimulationConfig) (st : RedisState)
    (l : List TraceOp) (hall : ∀ op ∈ l, ∃ k v c, op = TraceOp.setOp k v c) :
    (applyTraceRedis simCfg st l).2 = [] := by
  induction l generalizing st with
  | nil => rfl
  | cons op rest ih =>
      obtain ⟨k, v, c, rfl⟩ := hall op (List.mem_cons_self op rest)
      exact ih (redisSet st k v c) (fun op hop => hall op (List.mem_cons_of_mem _ hop))

/-- Replaying a trace of writes produces no read results (uncached tier). -/
theorem applyTraceDb_sets_results (simCfg : SimulationConfig) (st : DbState)
    (l : List TraceOp) (hall : ∀ op ∈ l, ∃ k v c, op = TraceOp.setOp k v c) :
    (applyTraceDb simCfg st l).2 = [] := by
  induction l generalizing st with
  | nil => rfl
  | cons op rest ih =>
      obtain ⟨k, v, c, rfl⟩ := hall op (List.mem_cons_self op rest)
      exact ih (dbSet st k v) (fun op hop => hall op (List.mem_cons_of_mem _ hop))

/-- C4: a GET run with requestCount N issues exactly N writes (the
population phase, keys benchmark:get:<i> in order) followed by exactly N
reads of the same keys in the same order, and replaying the trace
sequentially from any starting state returns no NOT_FOUND (none) result,
on the cached tier and on the uncached tier alike. -/
theorem c4_get_run_covered_reads (config : Config) (d : Draws) (duration : ℚ)
    (idDraw : String) (ht : config.type = "get") :
    ((runBenchmark config d duration idDraw).2).length = 2 * config.requests.toNat ∧
    (∀ i, i < config.requests.toNat → ∃ v c,
      ((runBenchmark config d duration idDraw).2).get? i
        = some (TraceOp.setOp ("benchmark:get:" ++ toString i) v c)) ∧
    (∀ i, i < config.requests.toNat →
      ((runBenchmark config d duration idDraw).2).get? (config.requests.toNat + i)
        = some (TraceOp.getOp ("benchmark:get:" ++ toString i))) ∧
    (∀ simCfg : SimulationConfig, ∀ st : RedisState,
      ∀ r ∈ (applyTraceRedis simCfg st ((runBenchmark config d duration idDraw).2)).2,
      r.isSome = true) ∧
    (∀ simCfg : SimulationConfig, ∀ st : DbState,
      ∀ r ∈ (applyTraceDb simCfg st ((runBenchmark config d duration idDraw).2)).2,
      r.isSome = true) := by
  have htr : (runBenchmark config d duration idDraw).2
      = getPopTrace config.storage config.size (cachedProbabilityOf config.cachedRatio)
          d config.requests.toNat ++ getReadTrace config.requests.toNat := by
    simp [runBenchmark, ht, getModeTrace]
  have hplen : (getPopTrace config.storage config.size
      (cachedProbabilityOf config.cachedRatio) d config.requests.toNat).length
      = config.requests.toNat := by
    simp [getPopTrace]
  refine ⟨?_, ?_, ?_, ?_, ?_⟩
  · rw [htr]
    simp [getPopTrace, getReadTrace, two_mul]
  · intro i hi
    have hlen : i < (getPopTrace config.storage config.size
        (cachedProbabilityOf config.cachedRatio) d config.requests.toNat).length := by
      rw [hplen]
      exact hi
    rw [htr, List.get?_append hlen, getPopTrace, List.get?_map, List.get?_range hi]
    by_cases hs : config.storage = "redis"
    · exact ⟨generateValue config.size (d.valPop i),
        JsNum.lt (.num (d.cachePop i)) (cachedProbabilityOf config.cachedRatio),
        by simp [hs]⟩
    · exact ⟨generateValue config.size (d.valPop i), false, by simp [hs]⟩
  · intro i hi
    have hle : (getPopTrace config.storage config.size
        (cachedProbabilityOf config.cachedRatio) d config.requests.toNat).length
        ≤ config.requests.toNat + i := by
      rw [hplen]
      omega
    rw [htr, List.get?_append_right hle, hplen]
    have hsub : config.requests.toNat + i - config.requests.toNat = i := by omega
    rw [hsub, getReadTrace, List.get?_map, List.get?_range hi]
    rfl
  · intro simCfg st r hr
    rw [htr, applyTraceRedis_append] at hr
    rcases List.mem_append.mp hr with hr | hr
    · rw [applyTraceRedis_sets_results simCfg st _
        (getPopTrace_all_sets config.storage config.size _ d _)] at hr
      cases hr
    · refine applyTraceRedis_reads_isSome simCfg _ _ ?_ r hr
      intro op hop
      simp only [getReadTrace, List.mem_map, List.mem_range] at hop
      obtain ⟨j, hj, rfl⟩ := hop
      refine ⟨_, rfl, ?_⟩
      exact applyTraceRedis_store_isSome simCfg st _ _
        (Or.inr (getPopTrace_covers config.storage config.size _ d _ j hj))
  · intro simCfg st r hr
    rw [htr, applyTraceDb_append] at hr
    rcases List.mem_append.mp hr with hr | hr
    · rw [applyTraceDb_sets_results simCfg st _
        (getPopTrace_all_sets config.storage config.size _ d _)] at hr
      cases hr
    · refine applyTraceDb_reads_isSome simCfg _ _ ?_ r hr
      intro op hop
      simp only [getReadTrace, List.mem_map, List.mem_range] at hop
      obtain ⟨j, hj, rfl⟩ := hop
      refine ⟨_, rfl, ?_⟩
      exact applyTraceDb_store_isSome simCfg st _ _
        (Or.inr (getPopTrace_covers config.storage config.size _ d _ j hj))

/-- C4 witness: the one-request GET run has a trace of length 2 and its
replay from the empty state on either tier returns only present values. -/
theorem c4_witness :
    getConfig.type = "get" ∧
    ((runBenchmark getConfig zeroDraws 1 "x").2).length = 2 * getConfig.requests.toNat ∧
    ((applyTraceRedis defaultSimulationConfig emptyRedis
        ((runBenchmark getConfig zeroDraws 1 "x").2)).2).all Option.isSome = true ∧
    ((applyTraceDb defaultSimulationConfig emptyDb
        ((runBenchmark getConfig zeroDraws 1 "x").2)).2).all Option.isSome = true := by
  have h := c4_get_run_covered_reads getConfig zeroDraws 1 "x" rfl
  refine ⟨rfl, h.1, ?_, ?_⟩
  · rw [List.all_eq_true]
    intro r hr
    exact h.2.2.2.1 defaultSimulationConfig emptyRedis r hr
  · rw [List.all_eq_true]
    intro r hr
    exact h.2.2.2.2 defaultSimulationConfig emptyDb r hr

/-- One MIXED iteration preserves the scheduling quota invariant: the SET
counter stays within setOps, the GET counter within getOps, and the two
counters sum to the iteration index. -/
theorem mixedStep_counts (storage : String) (size : Int) (p w : JsNum)
    (requests : Int) (d : Draws) (s g : ℤ) (i : ℕ) (st : ℕ × ℕ × List TraceOp)
    (h1 : st.1 ≤ s.toNat) (h2 : st.2.1 ≤ g.toNat) (hsum : st.1 + st.2.1 = i)
    (hi : i < s.toNat + g.toNat) :
    (mixedStep storage size p w (.num (s : ℚ)) (.num (g : ℚ)) requests d i st).1 ≤ s.toNat ∧
    (mixedStep storage size p w (.num (s : ℚ)) (.num (g : ℚ)) requests d i st).2.1 ≤ g.toNat ∧
    (mixedStep storage size p w (.num (s : ℚ)) (.num (g : ℚ)) requests d i st).1
      + (mixedStep storage size p w (.num (s : ℚ)) (.num (g : ℚ)) requests d i st).2.1
      = i + 1 := by
  unfold mixedStep
  dsimp only
  split
  · rename_i hset
    rw [Bool.and_eq_true] at hset
    obtain ⟨hlt, -⟩ := hset
    rw [JsNum.lt_num_num, decide_eq_true_iff] at hlt
    have hzz : (st.1 : ℤ) < s := by exact_mod_cast hlt
    refine ⟨?_, ?_, ?_⟩
    · show st.1 + 1 ≤ s.toNat
      omega
    · show st.2.1 ≤ g.toNat
      exact h2
    · show st.1 + 1 + st.2.1 = i + 1
      omega
  · rename_i hset
    have hglt : st.2.1 < g.toNat := by
      by_cases hA : JsNum.lt (.num (st.1 : ℚ)) (.num (s : ℚ)) = true
      · have hBC : (JsNum.le (.num (g : ℚ)) (.num (st.2.1 : ℚ))
            || JsNum.lt (.num (d.mix i)) w) = false := by
          cases hx : (JsNum.le (.num (g : ℚ)) (.num (st.2.1 : ℚ))
              || JsNum.lt (.num (d.mix i)) w) with
          | false => rfl
          | true =>
              refine absurd ?_ hset
              rw [hA, hx]
              rfl
        have hB := (Bool.or_eq_false_iff.mp hBC).1
        rw [JsNum.le_num_num, decide_eq_false_iff_not] at hB
        have hzz : (st.2.1 : ℤ) < g := by
          have hlt2 := lt_of_not_le hB
          exact_mod_cast hlt2
        omega
      · rw [JsNum.lt_num_num] at hA
        have hsle : s ≤ (st.1 : ℤ) := by
          have hle2 := not_lt.mp (fun hcon => hA (decide_eq_true hcon))
          exact_mod_cast hle2
        omega
    refine ⟨?_, ?_, ?_⟩
    · show st.1 ≤ s.toNat
      exact h1
    · show st.2.1 + 1 ≤ g.toNat
      omega
    · show st.1 + (st.2.1 + 1) = i + 1
      omega

/-- Quota invariant of the MIXED main loop: after any i ≤ requestCount
iterations the SET counter is at most setOps, the GET counter at most
getOps, and they sum to i. -/
theorem mixedIter_counts (storage : String) (size : Int) (p w : JsNum)
    (requests : Int) (d : Draws) (s g : ℤ) (hs : 0 ≤ s) (hg : 0 ≤ g)
    (hsg : s + g = requests) :
    ∀ i, i ≤ requests.toNat →
      (mixedIter storage size p w (.num (s : ℚ)) (.num (g : ℚ)) requests d i).1 ≤ s.toNat ∧
      (mixedIter storage size p w (.num (s : ℚ)) (.num (g : ℚ)) requests d i).2.1 ≤ g.toNat ∧
      (mixedIter storage size p w (.num (s : ℚ)) (.num (g : ℚ)) requests d i).1
        + (mixedIter storage size p w (.num (s : ℚ)) (.num (g : ℚ)) requests d i).2.1
        = i := by
  intro i
  induction i with
  | zero => exact fun _ => ⟨Nat.zero_le _, Nat.zero_le _, rfl⟩
  | succ m ih =>
      intro him
      obtain ⟨ih1, ih2, ih3⟩ := ih (Nat.le_of_succ_le him)
      have hi : m < s.toNat + g.toNat := by omega
      exact mixedStep_counts storage size p w requests d s g m
        (mixedIter storage size p w (.num (s : ℚ)) (.num (g : ℚ)) requests d m)
        ih1 ih2 ih3 hi

/-- MIXED scheduling parameters computed from a well-formed ratio pair
with weights not both zero. -/
theorem mixedParams_eq (ratio : String) (requests : Int) (a b : ℕ)
    (hp : parseRatioPair ratio = (.num a, .num b)) (hab : ¬(a = 0 ∧ b = 0)) :
    mixedParams ratio requests
      = (.num ((a : ℚ) / ((a : ℚ) + b)),
         .num ((⌊(a : ℚ) / ((a : ℚ) + b) * (requests : ℚ)⌋ : ℤ) : ℚ),
         .num (((requests - ⌊(a : ℚ) / ((a : ℚ) + b) * (requests : ℚ)⌋ : ℤ) : ℚ))) := by
  have hab2 : a + b ≠ 0 := by omega
  have hsum : (a : ℚ) + (b : ℚ) ≠ 0 := by
    intro hcon
    apply hab2
    exact_mod_cast hcon
  unfold mixedParams
  rw [hp]
  dsimp only
  rw [JsNum.add_num_num, JsNum.div_num_num _ _ hsum, JsNum.mul_num_num,
    JsNum.floorJs_num, JsNum.sub_num_num]
  push_cast
  rfl

/-- C3: in a MIXED run whose ratio parses to weights (a, b) not both zero
and whose requestCount is positive, for every sequence of random draws the
main loop performs exactly setOps = floor(requestCount * a / (a + b))
SET-classified iterations and getOps = requestCount - setOps
GET-classified iterations: after any i ≤ requestCount iterations the
running SET count never exceeds setOps and the running GET count never
exceeds getOps while summing to i, and the final counts are exactly
setOps and getOps, summing to requestCount. The full benchmark trace is
the pre-population trace followed by this main loop's trace. -/
theorem c3_mixed_quota (config : Config) (d : Draws) (duration : ℚ) (idDraw : String)
    (a b : ℕ) (ht : config.type = "mixed")
    (hp : parseRatioPair config.ratio = (.num a, .num b))
    (hab : ¬(a = 0 ∧ b = 0)) (hreq : 0 < config.requests) :
    (runBenchmark config d duration idDraw).2
      = mixedPreTrace config.storage config.size (cachedProbabilityOf config.cachedRatio) d
          (mixedPrePopCount config.ratio config.requests)
        ++ (mixedMain config.storage config.size (cachedProbabilityOf config.cachedRatio)
            config.ratio config.requests d config.requests.toNat).2.2 ∧
    (∀ i, i ≤ config.requests.toNat →
      (mixedMain config.storage config.size (cachedProbabilityOf config.cachedRatio)
          config.ratio config.requests d i).1 ≤ (mixedSetTarget a b config.requests).toNat ∧
      (mixedMain config.storage config.size (cachedProbabilityOf config.cachedRatio)
          config.ratio config.requests d i).2.1 ≤ (mixedGetTarget a b config.requests).toNat ∧
      (mixedMain config.storage config.size (cachedProbabilityOf config.cachedRatio)
          config.ratio config.requests d i).1
        + (mixedMain config.storage config.size (cachedProbabilityOf config.cachedRatio)
            config.ratio config.requests d i).2.1 = i) ∧
    (mixedMain config.storage config.size (cachedProbabilityOf config.cachedRatio)
        config.ratio config.requests d config.requests.toNat).1
      = (mixedSetTarget a b config.requests).toNat ∧
    (mixedMain config.storage config.size (cachedProbabilityOf config.cachedRatio)
        config.ratio config.requests d config.requests.toNat).2.1
      = (mixedGetTarget a b config.requests).toNat ∧
    (mixedMain config.storage config.size (cachedProbabilityOf config.cachedRatio)
        config.ratio config.requests d config.requests.toNat).1
      + (mixedMain config.storage config.size (cachedProbabilityOf config.cachedRatio)
          config.ratio config.requests d config.requests.toNat).2.1
      = config.requests.toNat := by
  have hab2 : a + b ≠ 0 := by omega
  have hsumpos : (0 : ℚ) < (a : ℚ) + b := by
    have hpos : 0 < a + b := Nat.pos_of_ne_zero hab2
    exact_mod_cast hpos
  have hw0 : 0 ≤ (a : ℚ) / ((a : ℚ) + b) :=
    div_nonneg (Nat.cast_nonneg a) (le_of_lt hsumpos)
  have hw1 : (a : ℚ) / ((a : ℚ) + b) ≤ 1 := by
    rw [div_le_one hsumpos]
    have hb0 : (0 : ℚ) ≤ b := Nat.cast_nonneg b
    linarith
  have hreqq : (0 : ℚ) < (config.requests : ℚ) := by exact_mod_cast hreq
  have hS0 : 0 ≤ mixedSetTarget a b config.requests :=
    Int.floor_nonneg.mpr (mul_nonneg hw0 (le_of_lt hreqq))
  have hSle : mixedSetTarget a b config.requests ≤ config.requests := by
    have hle1 : (a : ℚ) / ((a : ℚ) + b) * (config.requests : ℚ) ≤ (config.requests : ℚ) := by
      nlinarith
    calc mixedSetTarget a b config.requests
        ≤ ⌊(config.requests : ℚ)⌋ := Int.floor_le_floor hle1
      _ = config.requests := Int.floor_intCast _
  have hG0 : 0 ≤ mixedGetTarget a b config.requests := by
    unfold mixedGetTarget
    omega
  have hSG : mixedSetTarget a b config.requests + mixedGetTarget a b config.requests
      = config.requests := by
    unfold mixedGetTarget
    omega
  have hmm : ∀ i, mixedMain config.storage config.size
      (cachedProbabilityOf config.cachedRatio) config.ratio config.requests d i
      = mixedIter config.storage config.size (cachedProbabilityOf config.cachedRatio)
          (.num ((a : ℚ) / ((a : ℚ) + b))) (.num ((mixedSetTarget a b config.requests : ℤ) : ℚ))
          (.num ((mixedGetTarget a b config.requests : ℤ) : ℚ)) config.requests d i := by
    intro i
    rw [mixedMain, mixedParams_eq config.ratio config.requests a b hp hab]
    rfl
  have hinv := mixedIter_counts config.storage config.size
    (cachedProbabilityOf config.cachedRatio) (.num ((a : ℚ) / ((a : ℚ) + b)))
    config.requests d (mixedSetTarget a b config.requests)
    (mixedGetTarget a b config.requests) hS0 hG0 hSG
  have hreqsum : config.requests.toNat
      = (mixedSetTarget a b config.requests).toNat
        + (mixedGetTarget a b config.requests).toNat := by
    omega
  have hfin := hinv config.requests.toNat (le_refl _)
  refine ⟨?_, ?_, ?_, ?_, ?_⟩
  · simp [runBenchmark, ht]
  · intro i hi
    rw [hmm i]
    exact hinv i hi
  · rw [hmm]
    omega
  · rw [hmm]
    omega
  · rw [hmm]
    omega

/-- C3 witness: the quota theorem at ratio "1:1" with four requests — the
main loop performs exactly 2 SET-classified and 2 GET-classified
iterations. -/
theorem c3_witness :
    mixedConfig.type = "mixed" ∧
    parseRatioPair mixedConfig.ratio = (JsNum.num 1, JsNum.num 1) ∧
    (0 : Int) < mixedConfig.requests ∧
    (mixedMain "redis" 1 (cachedProbabilityOf "1:1") "1:1" 4 zeroDraws 4).1 = 2 ∧
    (mixedMain "redis" 1 (cachedProbabilityOf "1:1") "1:1" 4 zeroDraws 4).2.1 = 2 := by
  have h := c3_mixed_quota mixedConfig zeroDraws 1 "x" 1 1 rfl (by decide) (by decide)
    (by decide)
  have hs : (mixedSetTarget 1 1 mixedConfig.requests).toNat = 2 := by
    unfold mixedSetTarget
    norm_num [mixedConfig]
    rfl
  have hg : (mixedGetTarget 1 1 mixedConfig.requests).toNat = 2 := by
    unfold mixedGetTarget mixedSetTarget
    norm_num [mixedConfig]
    rfl
  exact ⟨rfl, by decide, by decide, h.2.2.1.trans hs, h.2.2.2.1.trans hg⟩
